import Mathlib

/-!
Verification of the notification queue engine of the-next-food-supabase.

The development shallowly embeds the two Supabase edge functions
(populate-expiring-queue, the Populator; process-expiring-queue, the Drainer)
and the queue table schema from the migration
20250824111000_migrate_to_queue_based_notifications.sql.

Conventions of the embedding:
* timestamps are natural numbers (ISO strings only ever compared by order);
* SQL text values are Lean String; PostgreSQL text comparison (C collation,
  ASCII data) is Lean's lexicographic String order;
* database reads are parameters of the functions that consume them (the query
  result is the input), database writes are explicit state passing;
* a fallible database call yields a value of an Except / outcome type.
-/

namespace TheNextFood

/-- Priority function of populate-expiring-queue (getNotificationPriority,
src/supabase/functions/populate-expiring-queue/index.ts lines 21-26). -/
def getNotificationPriority (daysUntilExpiry : Int) : String :=
  if daysUntilExpiry ≤ 0 then "urgent"
  else if daysUntilExpiry ≤ 2 then "high"
  else if daysUntilExpiry ≤ 6 then "medium"
  else "low"

/-- Priority function of check-items-expiring (getPriority,
src/supabase/functions/check-items-expiring/index.ts lines 66-72); note the
redundant first branch of the source (`< 0` then `<= 0`, both urgent). -/
def getPriority (daysUntilExpiry : Int) : String :=
  if daysUntilExpiry < 0 then "urgent"
  else if daysUntilExpiry ≤ 0 then "urgent"
  else if daysUntilExpiry ≤ 2 then "high"
  else if daysUntilExpiry ≤ 6 then "medium"
  else "low"

/-- The priority mapping in the words of the specification (section 3):
`<=0 → urgent`, `1..2 → high`, `3..6 → medium`, `>=7 → low`.  This is the
refinement target the two source implementations are compared against. -/
def specPriorityMapping (d : Int) : String :=
  if d ≤ 0 then "urgent"
  else if 1 ≤ d ∧ d ≤ 2 then "high"
  else if 3 ≤ d ∧ d ≤ 6 then "medium"
  else "low"

/-- One row of public.expiring_items_queue (migration lines 115-132).
`id` is the generated primary key; `processed_at` is nullable. -/
structure QueueItem where
  id : Nat
  food_item_id : Nat
  user_id : Nat
  chat_id : Int
  item_name : String
  quantity : Nat
  unit : String
  expiration_date : String
  category : String
  days_until_expiry : Int
  notification_priority : String
  scheduled_at : Nat
  processed_at : Option Nat
  status : String
  created_at : Nat
  updated_at : Nat
  deriving DecidableEq, Repr

/-- Message renderer of process-expiring-queue (createNotificationMessage,
src/unnamed/part_002 lines 59-75). -/
def createNotificationMessage (item : QueueItem) : String :=
  let base :=
    if item.days_until_expiry = 0 then
      "🚨 ALERT: Your " ++ toString item.quantity ++ " " ++ item.unit ++
        " of " ++ item.item_name ++ " expires TODAY!"
    else if item.days_until_expiry = 1 then
      "⚠️ WARNING: Your " ++ toString item.quantity ++ " " ++ item.unit ++
        " of " ++ item.item_name ++ " expires TOMORROW!"
    else
      "📅 REMINDER: Your " ++ toString item.quantity ++ " " ++ item.unit ++
        " of " ++ item.item_name ++ " expires in " ++
        toString item.days_until_expiry ++ " days."
  base ++ "\n📂 Category: " ++ item.category

/-- A concrete queue row used for counterexamples: one liter of Milk, dairy,
staged late so that days_until_expiry is already negative. -/
def milkRowNeg : QueueItem :=
  { id := 1, food_item_id := 10, user_id := 20, chat_id := 111
  , item_name := "Milk", quantity := 1, unit := "liter"
  , expiration_date := "2025-08-23", category := "dairy"
  , days_until_expiry := -1, notification_priority := "urgent"
  , scheduled_at := 0, processed_at := none, status := "pending"
  , created_at := 0, updated_at := 0 }

/-- Status filter of the Drainer's selection query
(src/unnamed/part_002 line 198: .eq of status with pending). -/
def isPendingRow (r : QueueItem) : Bool := r.status == "pending"

/-- The order realised by the Drainer's selection query
(src/unnamed/part_002 lines 199-200): notification_priority descending —
a PostgreSQL text column, hence lexicographic string comparison — then
scheduled_at ascending. -/
def drainerRel (a b : QueueItem) : Prop :=
  b.notification_priority < a.notification_priority ∨
    (a.notification_priority = b.notification_priority ∧
      a.scheduled_at ≤ b.scheduled_at)

instance : DecidableRel drainerRel := fun a b =>
  decidable_of_iff
    (b.notification_priority.toList < a.notification_priority.toList ∨
      (a.notification_priority = b.notification_priority ∧
        a.scheduled_at ≤ b.scheduled_at)) (by
    unfold drainerRel
    rw [String.lt_iff_toList_lt])

instance : IsTotal QueueItem drainerRel := by
  constructor
  intro a b
  rcases lt_trichotomy a.notification_priority b.notification_priority with h | h | h
  · exact Or.inr (Or.inl h)
  · rcases Nat.le_total a.scheduled_at b.scheduled_at with hs | hs
    · exact Or.inl (Or.inr ⟨h, hs⟩)
    · exact Or.inr (Or.inr ⟨h.symm, hs⟩)
  · exact Or.inl (Or.inl h)

instance : IsTrans QueueItem drainerRel := by
  constructor
  intro a b c hab hbc
  rcases hab with h1 | ⟨e1, s1⟩ <;> rcases hbc with h2 | ⟨e2, s2⟩
  · exact Or.inl (lt_trans h2 h1)
  · exact Or.inl (e2 ▸ h1)
  · exact Or.inl (e1.symm ▸ h2)
  · exact Or.inr ⟨e1.trans e2, le_trans s1 s2⟩

/-- The Drainer's selection for one invocation (src/unnamed/part_002 lines
195-201): rows with status pending, ordered by priority descending then
scheduled_at ascending, limited to 1000.  SQL promises no particular order on
full ties, so any sort consistent with drainerRel models the query; we use
insertion sort. -/
def pendingSelection (rows : List QueueItem) : List QueueItem :=
  ((rows.filter isPendingRow).insertionSort drainerRel).take 1000

/-- Four pending rows, one of each priority, with distinct scheduled times. -/
def sampleRow (i : Nat) (prio : String) (sched : Nat) : QueueItem :=
  { id := i, food_item_id := i, user_id := 20, chat_id := 111
  , item_name := "Item", quantity := 1, unit := "pc"
  , expiration_date := "2025-08-30", category := "misc"
  , days_until_expiry := 2, notification_priority := prio
  , scheduled_at := sched, processed_at := none, status := "pending"
  , created_at := 0, updated_at := 0 }

/-- A queue holding one pending row of each priority tier. -/
def rowsAllPriorities : List QueueItem :=
  [sampleRow 1 "low" 0, sampleRow 2 "urgent" 1,
   sampleRow 3 "medium" 2, sampleRow 4 "high" 3]

/-- One row of public.food_items as fetched by the Populator's items query
(populate-expiring-queue lines 40-44). -/
structure FoodItem where
  id : Nat
  user_id : Nat
  name : String
  quantity : Nat
  unit : String
  expiration_date : String
  category : String
  deriving DecidableEq, Repr

/-- One row of the users relation as queried by the Populator (lines 61-65);
chat_id is nullable before the query's not-null filter. -/
structure UserRow where
  id : Nat
  chat_id : Option Int
  deriving DecidableEq, Repr

/-- The Populator's chat lookup: the users query keeps only rows with a
non-null chat_id (line 65) and userMap sends a user id to its chat_id
(line 78). -/
def lookupChat (users : List UserRow) (uid : Nat) : Option Int :=
  ((users.filter (fun u => u.chat_id.isSome)).find? (fun u => u.id == uid)).bind
    (fun u => u.chat_id)

/-- The queue row the Populator builds for one eligible item
(populate-expiring-queue lines 83-96).  The columns the database generates
(id, created_at, updated_at) get the insertion time and a zero id. -/
def mkQueueRow (item : FoodItem) (chat : Int) (daysAhead : Nat) (now : Nat) :
    QueueItem :=
  { id := 0
  , food_item_id := item.id
  , user_id := item.user_id
  , chat_id := chat
  , item_name := item.name
  , quantity := item.quantity
  , unit := item.unit
  , expiration_date := item.expiration_date
  , category := item.category
  , days_until_expiry := (daysAhead : Int)
  , notification_priority := getNotificationPriority (daysAhead : Int)
  , scheduled_at := now
  , processed_at := none
  , status := "pending"
  , created_at := now
  , updated_at := now }

/-- The queueItems array of populateQueueForDayRange (lines 81-96): the
fetched items whose owner appears in the user map, as queue rows. -/
def stagedRows (items : List FoodItem) (users : List UserRow)
    (daysAhead : Nat) (now : Nat) : List QueueItem :=
  (items.filter (fun it => (lookupChat users it.user_id).isSome)).map
    (fun it => mkQueueRow it ((lookupChat users it.user_id).getD 0) daysAhead now)

/-- The unique keys of public.expiring_items_queue as created by the
migration (lines 115-139): the generated primary key only.  The five CREATE
INDEX statements are plain non-unique indexes, and no unique constraint or
unique index on (food_item_id, days_until_expiry) exists anywhere in the
repository. -/
def queueUniqueKeys : List (List String) := [["id"]]

/-- The conflict target of the Populator's upsert (line 111). -/
def upsertConflictTarget : List String := ["food_item_id", "days_until_expiry"]

/-- PostgreSQL accepts an ON CONFLICT column list only when some unique index
covers exactly those columns (as a set). -/
def conflictTargetMatches (target key : List String) : Bool :=
  target.all (fun c => key.contains c) && key.all (fun c => target.contains c)

def upsertAllowed (keys : List (List String)) (target : List String) : Bool :=
  keys.any (conflictTargetMatches target)

/-- ON CONFLICT DO UPDATE against the (food_item_id, days_until_expiry) key:
replace the row sharing the key (keeping its generated columns) or append. -/
def upsertRow (table : List QueueItem) (row : QueueItem) : List QueueItem :=
  if table.any (fun r => r.food_item_id == row.food_item_id &&
      r.days_until_expiry == row.days_until_expiry) then
    table.map (fun r =>
      if r.food_item_id == row.food_item_id &&
          r.days_until_expiry == row.days_until_expiry then
        { row with id := r.id, created_at := r.created_at }
      else r)
  else table ++ [row]

/-- One supabase upsert call (populate-expiring-queue lines 108-113):
PostgreSQL rejects it with error 42P10 when no unique index matches the
conflict target, otherwise every row of the batch is inserted or updated. -/
def upsertBatch (keys : List (List String)) (table : List QueueItem)
    (batch : List QueueItem) : Except String (List QueueItem) :=
  if upsertAllowed keys upsertConflictTarget then
    Except.ok (batch.foldl upsertRow table)
  else
    Except.error
      "there is no unique or exclusion constraint matching the ON CONFLICT specification"

/-- The slice-based batching of both source loops: runs of n consecutive
elements (n = 100 for the Populator, 50 for the Drainer; a batch size of 0
would loop forever in the source, so it yields empty chunks here). -/
def chunksOf (n : Nat) : List QueueItem → List (List QueueItem)
  | [] => []
  | a :: as => (a :: as).take n :: chunksOf n (as.drop (n - 1))
termination_by l => l.length
decreasing_by simp [List.length_drop]; omega

/-- Outcome of one populateQueueForDayRange call: the shape of the object the
source returns, either an error message or a processed count. -/
inductive PopOutcome
  | err (msg : String)
  | processed (n : Nat)
  deriving DecidableEq, Repr

/-- The insertion loop of populateQueueForDayRange (lines 104-122): batches
of BATCH_SIZE = 100, returning at the first failing batch. -/
def upsertBatchesLoop (keys : List (List String)) :
    List QueueItem → Nat → List (List QueueItem) → PopOutcome × List QueueItem
  | table, total, [] => (PopOutcome.processed total, table)
  | table, total, b :: bs =>
    match upsertBatch keys table b with
    | Except.error m => (PopOutcome.err m, table)
    | Except.ok t2 => upsertBatchesLoop keys t2 (total + b.length) bs

/-- populateQueueForDayRange (lines 29-126).  The two database reads (items
expiring on the target date, user rows) enter as parameters; the queue table
contents enter and leave as explicit state. -/
def populateQueueForDayRange (keys : List (List String)) (items : List FoodItem)
    (users : List UserRow) (daysAhead : Nat) (now : Nat)
    (table : List QueueItem) : PopOutcome × List QueueItem :=
  if items.isEmpty then (PopOutcome.processed 0, table)
  else if (users.filter (fun u => u.chat_id.isSome)).isEmpty then
    (PopOutcome.processed 0, table)
  else
    let queueItems := stagedRows items users daysAhead now
    if queueItems.isEmpty then (PopOutcome.processed 0, table)
    else upsertBatchesLoop keys table 0 (chunksOf 100 queueItems)

/-- One entry of the Populator handler's results array (line 164):
days_ahead plus the spread fields of the offset's outcome. -/
structure OffsetEntry where
  days_ahead : Nat
  processed : Option Nat
  error : Option String
  deriving DecidableEq, Repr

def entryOf (d : Nat) : PopOutcome → OffsetEntry
  | PopOutcome.processed n => ⟨d, some n, none⟩
  | PopOutcome.err m => ⟨d, none, some m⟩

/-- The totalProcessed update (lines 166-168); JavaScript truthiness makes a
processed count of 0 skip the addition, with the same sum. -/
def addProcessed (total : Nat) : PopOutcome → Nat
  | PopOutcome.processed n => if n ≠ 0 then total + n else total
  | PopOutcome.err _ => total

/-- The processed count an outcome contributes to the total. -/
def processedOf : PopOutcome → Nat
  | PopOutcome.processed n => n
  | PopOutcome.err _ => 0

def DEFAULT_DAYS_AHEAD : Nat := 7

/-- The Populator handler's offset loop (lines 158-174), over the per-offset
outcome f (whatever populateQueueForDayRange returned for that offset). -/
def populateLoop (f : Nat → PopOutcome) :
    List Nat → List OffsetEntry × Nat → List OffsetEntry × Nat
  | [], acc => acc
  | d :: ds, (res, tot) =>
    populateLoop f ds (res ++ [entryOf d (f d)], addProcessed tot (f d))

/-- The JSON body and status of a completed Populator run (lines 178-185):
the success field is the literal true. -/
structure PopResponse where
  success : Bool
  total_processed : Nat
  results : List OffsetEntry
  httpStatus : Nat
  deriving DecidableEq, Repr

def populateResponse (f : Nat → PopOutcome) : PopResponse :=
  let out := populateLoop f (List.range (DEFAULT_DAYS_AHEAD + 1)) ([], 0)
  { success := true, total_processed := out.2, results := out.1
  , httpStatus := 200 }

/-- The response of the telegram-send collaborator as the Drainer reads it
(part_002 lines 96-104): an ok flag and an error text; a rate-limit
rejection arrives as an ok = false response. -/
structure ChannelResp where
  ok : Bool
  errorMsg : String
  deriving DecidableEq, Repr

structure NotificationResult where
  success : Bool
  error : Option String
  deriving DecidableEq, Repr

/-- sendTelegramNotification (part_002 lines 78-109). -/
def sendTelegramNotification (resp : ChannelResp) : NotificationResult :=
  if resp.ok then { success := true, error := none }
  else { success := false, error := some resp.errorMsg }

/-- updateQueueItemStatus (part_002 lines 112-130): sets status and
updated_at and sets processed_at only when a value is supplied. -/
def updateQueueItemStatus (item : QueueItem) (status : String) (now : Nat)
    (processedAt : Option Nat) : QueueItem :=
  { item with
    status := status
  , updated_at := now
  , processed_at := match processedAt with
      | some t => some t
      | none => item.processed_at }

/-- The per-row body of processQueueBatch (part_002 lines 138-174): mark
processing, render the message, send, then mark sent (stamping processed_at)
or failed (leaving it). -/
def processRow (send : QueueItem → ChannelResp) (now : Nat)
    (item : QueueItem) : QueueItem :=
  let item1 := updateQueueItemStatus item "processing" now none
  if (sendTelegramNotification (send item)).success then
    updateQueueItemStatus item1 "sent" now (some now)
  else updateQueueItemStatus item1 "failed" now none

structure BatchResult where
  processed : Nat
  sent : Nat
  failed : Nat
  deriving DecidableEq, Repr

/-- processQueueBatch (part_002 lines 133-178): rows processed one after the
other, every row tallied as sent or failed and counted as processed. -/
def processQueueBatch (send : QueueItem → ChannelResp) (now : Nat) :
    List QueueItem → BatchResult × List QueueItem
  | [] => (⟨0, 0, 0⟩, [])
  | item :: rest =>
    let r := processRow send now item
    let res := processQueueBatch send now rest
    if (sendTelegramNotification (send item)).success then
      (⟨res.1.processed + 1, res.1.sent + 1, res.1.failed⟩, r :: res.2)
    else
      (⟨res.1.processed + 1, res.1.sent, res.1.failed + 1⟩, r :: res.2)

structure DrainResponse where
  success : Bool
  httpStatus : Nat
  total_processed : Nat
  total_sent : Nat
  total_failed : Nat
  deriving DecidableEq, Repr

/-- The batch loop of the Drainer handler (part_002 lines 234-245). -/
def drainBatches (send : QueueItem → ChannelResp) (now : Nat) :
    List (List QueueItem) → BatchResult × List QueueItem
  | [] => (⟨0, 0, 0⟩, [])
  | b :: bs =>
    let br := processQueueBatch send now b
    let rest := drainBatches send now bs
    (⟨br.1.processed + rest.1.processed, br.1.sent + rest.1.sent,
      br.1.failed + rest.1.failed⟩, br.2 ++ rest.2)

/-- The Drainer handler (part_002 lines 181-271): the result of the pending
query enters as a parameter; a fetch error yields a 500 error response and no
row is touched; otherwise the fetched rows are processed in batches of 50 and
the response reports success with the aggregate tallies. -/
def drainRun (fetch : Except String (List QueueItem))
    (send : QueueItem → ChannelResp) (now : Nat) :
    DrainResponse × List QueueItem :=
  match fetch with
  | Except.error _ =>
    ({ success := false, httpStatus := 500, total_processed := 0
     , total_sent := 0, total_failed := 0 }, [])
  | Except.ok rows =>
    if rows.isEmpty then
      ({ success := true, httpStatus := 200, total_processed := 0
       , total_sent := 0, total_failed := 0 }, [])
    else
      let agg := drainBatches send now (chunksOf 50 rows)
      ({ success := true, httpStatus := 200
       , total_processed := agg.1.processed, total_sent := agg.1.sent
       , total_failed := agg.1.failed }, agg.2)

/-- A concrete inventory item and its owner, for closed evaluations. -/
def milkItem : FoodItem :=
  { id := 10, user_id := 20, name := "Milk", quantity := 1, unit := "liter"
  , expiration_date := "2025-08-25", category := "dairy" }

def ownerWithChat : UserRow := { id := 20, chat_id := some 111 }

/-- C2 amended: the Drainer's selection lists the pending rows ordered by the
notification_priority text descending — lexicographically, so urgent first,
then medium, then low, then high — and within equal priority strings by
scheduled_at ascending (oldest first), selecting at most 1000 rows; when at
most 1000 rows are pending the selection is a permutation of them. -/
theorem C2_selection_order_amended :
    ∀ rows : List QueueItem,
      List.Sorted drainerRel (pendingSelection rows) ∧
      (pendingSelection rows).length ≤ 1000 ∧
      (pendingSelection rows).all isPendingRow = true ∧
      ((rows.filter isPendingRow).length ≤ 1000 →
        (pendingSelection rows).Perm (rows.filter isPendingRow)) := by
  intro rows
  refine ⟨?_, ?_, ?_, ?_⟩
  · exact List.Pairwise.sublist (List.take_sublist _ _)
      (List.sorted_insertionSort drainerRel _)
  · exact List.length_take_le 1000
      ((rows.filter isPendingRow).insertionSort drainerRel)
  · rw [List.all_eq_true]
    intro r hr
    have h1 : r ∈ (rows.filter isPendingRow).insertionSort drainerRel :=
      (List.take_sublist _ _).subset hr
    exact (List.mem_filter.mp ((List.mem_insertionSort _).mp h1)).2
  · intro hlen
    have hlen2 : ((rows.filter isPendingRow).insertionSort drainerRel).length ≤ 1000 := by
      rw [List.length_insertionSort]; exact hlen
    rw [pendingSelection, List.take_of_length_le hlen2]
    exact List.perm_insertionSort _ _

/-- C2 witness: the amended ordering evaluated on the four-priority queue. -/
theorem C2_witness :
    List.Sorted drainerRel (pendingSelection rowsAllPriorities) ∧
    (pendingSelection rowsAllPriorities).Perm
      (rowsAllPriorities.filter isPendingRow) :=
  ⟨(C2_selection_order_amended rowsAllPriorities).1,
   (C2_selection_order_amended rowsAllPriorities).2.2.2 (by decide)⟩

end TheNextFood

namespace TheNextFood

/-- C4: both priority implementations realise the specification's mapping
(urgent below 1, high for 1-2, medium for 3-6, low from 7 up), hence agree on
every input; on the sample inputs the outputs are the required ones. -/
theorem C4_priority_mapping_agree :
    (∀ d : Int, getNotificationPriority d = specPriorityMapping d) ∧
    (∀ d : Int, getPriority d = specPriorityMapping d) ∧
    ([-1, 0, 1, 2, 3, 6, 7, 100] : List Int).map getNotificationPriority =
      ["urgent", "urgent", "high", "high", "medium", "medium", "low", "low"] ∧
    ([-1, 0, 1, 2, 3, 6, 7, 100] : List Int).map getPriority =
      ["urgent", "urgent", "high", "high", "medium", "medium", "low", "low"] := by
  refine ⟨fun d => ?_, fun d => ?_, by decide, by decide⟩
  · unfold getNotificationPriority specPriorityMapping
    split_ifs <;> first | rfl | omega
  · unfold getPriority specPriorityMapping
    split_ifs <;> first | rfl | omega

end TheNextFood

namespace TheNextFood

/-- C3: the claim fails on the code: a row whose days_until_expiry is negative
(≤ 0, priority urgent) is rendered with the REMINDER template, not the urgent
ALERT template — createNotificationMessage branches on equality with 0, not on
≤ 0. -/
theorem C3_counterexample :
    createNotificationMessage milkRowNeg =
      "📅 REMINDER: Your 1 liter of Milk expires in -1 days.\n📂 Category: dairy" ∧
    getNotificationPriority milkRowNeg.days_until_expiry = "urgent" ∧
    createNotificationMessage milkRowNeg ≠
      "🚨 ALERT: Your 1 liter of Milk expires TODAY!\n📂 Category: dairy" := by
  refine ⟨rfl, rfl, ?_⟩
  decide

/-- C3 amended: the message body is determined by days_until_expiry and the
snapshot fields: for days_until_expiry = 0 (not ≤ 0) the urgent ALERT
template, for 1 the WARNING template, for every other value — including
negatives — the REMINDER template with the days value substituted, each
followed by the category line. -/
theorem C3_message_rendering_amended :
    ∀ item : QueueItem,
      (item.days_until_expiry = 0 →
        createNotificationMessage item =
          "🚨 ALERT: Your " ++ toString item.quantity ++ " " ++ item.unit ++
            " of " ++ item.item_name ++ " expires TODAY!" ++
            "\n📂 Category: " ++ item.category) ∧
      (item.days_until_expiry = 1 →
        createNotificationMessage item =
          "⚠️ WARNING: Your " ++ toString item.quantity ++ " " ++ item.unit ++
            " of " ++ item.item_name ++ " expires TOMORROW!" ++
            "\n📂 Category: " ++ item.category) ∧
      (item.days_until_expiry ≠ 0 → item.days_until_expiry ≠ 1 →
        createNotificationMessage item =
          "📅 REMINDER: Your " ++ toString item.quantity ++ " " ++ item.unit ++
            " of " ++ item.item_name ++ " expires in " ++
            toString item.days_until_expiry ++ " days." ++
            "\n📂 Category: " ++ item.category) := by
  intro item
  refine ⟨fun h => ?_, fun h => ?_, fun h0 h1 => ?_⟩
  · simp [createNotificationMessage, h]
  · simp [createNotificationMessage, h]
  · simp [createNotificationMessage, h0, h1]

/-- C3 witness: the amended templates evaluated on concrete rows. -/
theorem C3_witness :
    createNotificationMessage { milkRowNeg with days_until_expiry := 0 } =
      "🚨 ALERT: Your 1 liter of Milk expires TODAY!\n📂 Category: dairy" ∧
    createNotificationMessage { milkRowNeg with days_until_expiry := 1 } =
      "⚠️ WARNING: Your 1 liter of Milk expires TOMORROW!\n📂 Category: dairy" ∧
    createNotificationMessage { milkRowNeg with days_until_expiry := 3 } =
      "📅 REMINDER: Your 1 liter of Milk expires in 3 days.\n📂 Category: dairy" :=
  ⟨(C3_message_rendering_amended _).1 rfl,
   (C3_message_rendering_amended _).2.1 rfl,
   (C3_message_rendering_amended _).2.2 (by decide) (by decide)⟩

/-- C2: the claim fails on the code: with one pending row of each priority,
the selection order is urgent, medium, low, high — priority is a text column,
so descending order is lexicographic, which places high after medium and low,
not between urgent and medium as the claim states. -/
theorem C2_counterexample :
    (pendingSelection rowsAllPriorities).map QueueItem.notification_priority =
      ["urgent", "medium", "low", "high"] ∧
    (pendingSelection rowsAllPriorities).map QueueItem.notification_priority ≠
      ["urgent", "high", "medium", "low"] := by
  constructor
  · decide
  · decide

theorem addProcessed_eq (tot : Nat) (oc : PopOutcome) :
    addProcessed tot oc = tot + processedOf oc := by
  cases oc with
  | err m => simp [addProcessed, processedOf]
  | processed n =>
    by_cases h : n = 0 <;> simp [addProcessed, processedOf, h]

theorem populateLoop_spec (f : Nat → PopOutcome) :
    ∀ (ds : List Nat) (res : List OffsetEntry) (tot : Nat),
      populateLoop f ds (res, tot) =
        (res ++ ds.map (fun d => entryOf d (f d)),
         tot + (ds.map (fun d => processedOf (f d))).sum)
  | [], res, tot => by simp [populateLoop]
  | d :: ds, res, tot => by
    rw [populateLoop, populateLoop_spec f ds, addProcessed_eq]
    simp [Nat.add_assoc]

theorem processQueueBatch_snd (send : QueueItem → ChannelResp) (now : Nat) :
    ∀ b : List QueueItem,
      (processQueueBatch send now b).2 = b.map (processRow send now)
  | [] => rfl
  | item :: rest => by
    by_cases h : (sendTelegramNotification (send item)).success <;>
      simp [processQueueBatch, h, processQueueBatch_snd send now rest]

theorem processQueueBatch_processed (send : QueueItem → ChannelResp) (now : Nat) :
    ∀ b : List QueueItem,
      (processQueueBatch send now b).1.processed = b.length
  | [] => rfl
  | item :: rest => by
    by_cases h : (sendTelegramNotification (send item)).success <;>
      simp [processQueueBatch, h, processQueueBatch_processed send now rest]

theorem processQueueBatch_split (send : QueueItem → ChannelResp) (now : Nat) :
    ∀ b : List QueueItem,
      (processQueueBatch send now b).1.processed =
        (processQueueBatch send now b).1.sent +
          (processQueueBatch send now b).1.failed
  | [] => rfl
  | item :: rest => by
    have ih := processQueueBatch_split send now rest
    by_cases h : (sendTelegramNotification (send item)).success <;>
      simp [processQueueBatch, h] <;> omega

theorem drainBatches_snd (send : QueueItem → ChannelResp) (now : Nat) :
    ∀ bs : List (List QueueItem),
      (drainBatches send now bs).2 = bs.flatten.map (processRow send now)
  | [] => rfl
  | b :: bs => by
    simp [drainBatches, drainBatches_snd send now bs,
      processQueueBatch_snd send now b]

theorem drainBatches_processed (send : QueueItem → ChannelResp) (now : Nat) :
    ∀ bs : List (List QueueItem),
      (drainBatches send now bs).1.processed = bs.flatten.length
  | [] => rfl
  | b :: bs => by
    simp [drainBatches, drainBatches_processed send now bs,
      processQueueBatch_processed send now b]

theorem drainBatches_split (send : QueueItem → ChannelResp) (now : Nat) :
    ∀ bs : List (List QueueItem),
      (drainBatches send now bs).1.processed =
        (drainBatches send now bs).1.sent + (drainBatches send now bs).1.failed
  | [] => rfl
  | b :: bs => by
    have ih := drainBatches_split send now bs
    have hb := processQueueBatch_split send now b
    simp [drainBatches]
    omega

theorem chunksOf_join (n : Nat) (hn : 0 < n) :
    ∀ l : List QueueItem, (chunksOf n l).flatten = l
  | [] => by rw [chunksOf]; rfl
  | a :: as => by
    rw [chunksOf, List.flatten_cons, chunksOf_join n hn (as.drop (n - 1))]
    obtain ⟨m, rfl⟩ : ∃ m, n = m + 1 := ⟨n - 1, by omega⟩
    simp [List.take_succ_cons]
termination_by l => l.length
decreasing_by simp [List.length_drop]; omega

theorem drainRun_ok_spec (rows : List QueueItem)
    (send : QueueItem → ChannelResp) (now : Nat) :
    (drainRun (Except.ok rows) send now).1.success = true ∧
    (drainRun (Except.ok rows) send now).1.httpStatus = 200 ∧
    (drainRun (Except.ok rows) send now).2 = rows.map (processRow send now) ∧
    (drainRun (Except.ok rows) send now).1.total_processed = rows.length ∧
    (drainRun (Except.ok rows) send now).1.total_sent +
        (drainRun (Except.ok rows) send now).1.total_failed =
      (drainRun (Except.ok rows) send now).1.total_processed := by
  by_cases h : rows = []
  · subst h; simp [drainRun]
  · have hne : rows.isEmpty = false := by simp [List.isEmpty_iff, h]
    have hj : (chunksOf 50 rows).flatten = rows := chunksOf_join 50 (by omega) rows
    have h1 := drainBatches_snd send now (chunksOf 50 rows)
    have h2 := drainBatches_processed send now (chunksOf 50 rows)
    have h3 := drainBatches_split send now (chunksOf 50 rows)
    rw [hj] at h1 h2
    refine ⟨?_, ?_, ?_, ?_, ?_⟩ <;>
      first
      | (simp [drainRun, hne, h1, h2]; omega)
      | simp [drainRun, hne, h1, h2]

/-- C8: the Populator handler attempts every offset 0..7 before returning:
whatever outcome each offset produces, the results breakdown carries exactly
one entry per offset in order, each holding that offset's own outcome, so an
error at one offset never suppresses a later offset's entry. -/
theorem C8_all_offsets_attempted :
    ∀ f : Nat → PopOutcome,
      (populateResponse f).results =
        (List.range (DEFAULT_DAYS_AHEAD + 1)).map (fun d => entryOf d (f d)) ∧
      (populateResponse f).results.length = DEFAULT_DAYS_AHEAD + 1 := by
  intro f
  have h := populateLoop_spec f (List.range (DEFAULT_DAYS_AHEAD + 1)) [] 0
  constructor
  · simp [populateResponse, h]
  · simp [populateResponse, h]

/-- C5: the claim fails on the code: on a run in which every offset fails,
the response still reports success = true (HTTP 200) — the handler builds the
completed-run response with the literal true regardless of the offsets'
outcomes. -/
theorem C5_counterexample :
    ((populateResponse (fun _ => PopOutcome.err "database timeout")).results.all
        (fun r => r.error.isSome)) = true ∧
    (populateResponse (fun _ => PopOutcome.err "database timeout")).success
        = true ∧
    (populateResponse (fun _ => PopOutcome.err "database timeout")).httpStatus
        = 200 := by
  refine ⟨by decide, rfl, rfl⟩

/-- C5 amended: a completed Populator run always reports success = true with
HTTP 200, a per-offset results breakdown (one entry per offset in 0..7 with
that offset's outcome) and a total processed count equal to the sum of the
per-offset processed counts — even when every offset failed; success = false
arises only from an unhandled exception. -/
theorem C5_response_amended :
    ∀ f : Nat → PopOutcome,
      (populateResponse f).success = true ∧
      (populateResponse f).httpStatus = 200 ∧
      (populateResponse f).results =
        (List.range (DEFAULT_DAYS_AHEAD + 1)).map (fun d => entryOf d (f d)) ∧
      (populateResponse f).total_processed =
        ((List.range (DEFAULT_DAYS_AHEAD + 1)).map
          (fun d => processedOf (f d))).sum := by
  intro f
  have h := populateLoop_spec f (List.range (DEFAULT_DAYS_AHEAD + 1)) [] 0
  refine ⟨rfl, rfl, ?_, ?_⟩ <;> simp [populateResponse, h]

/-- C1: evaluation at the failing input.  The migration's only unique key is
the primary key, so the conflict target (food_item_id, days_until_expiry) of
the Populator's upsert matches no unique index; PostgreSQL rejects the
insert with error 42P10, the run reports the error, and no row is staged —
the claimed uniqueness-constraint-backed deduplication does not exist. -/
theorem C1_upsert_rejected_no_unique_index :
    upsertAllowed queueUniqueKeys upsertConflictTarget = false ∧
    populateQueueForDayRange queueUniqueKeys [milkItem] [ownerWithChat] 1 5 []
      = (PopOutcome.err
          "there is no unique or exclusion constraint matching the ON CONFLICT specification",
         []) := by
  constructor
  · decide
  · have hs : stagedRows [milkItem] [ownerWithChat] 1 5 =
        [mkQueueRow milkItem 111 1 5] := rfl
    have hch : ∀ r : QueueItem, chunksOf 100 [r] = [[r]] := by
      intro r; simp [chunksOf]
    have hall : upsertAllowed queueUniqueKeys upsertConflictTarget = false := by
      decide
    simp [populateQueueForDayRange, hs, hch, upsertBatchesLoop, upsertBatch,
      hall]
    decide

/-- C6: a row the Populator builds has status pending and null processed_at;
the Drainer's per-row pass turns it into status sent with processed_at
stamped when the channel accepts the message, and into status failed with
processed_at still null when the channel rejects it. -/
theorem C6_status_progression :
    ∀ (it : FoodItem) (chat : Int) (d now now2 : Nat) (e : String),
      (mkQueueRow it chat d now).status = "pending" ∧
      (mkQueueRow it chat d now).processed_at = none ∧
      (processRow (fun _ => ⟨true, e⟩) now2 (mkQueueRow it chat d now)).status
          = "sent" ∧
      (processRow (fun _ => ⟨true, e⟩) now2
          (mkQueueRow it chat d now)).processed_at = some now2 ∧
      (processRow (fun _ => ⟨false, e⟩) now2 (mkQueueRow it chat d now)).status
          = "failed" ∧
      (processRow (fun _ => ⟨false, e⟩) now2
          (mkQueueRow it chat d now)).processed_at = none := by
  intro it chat d now now2 e
  refine ⟨rfl, rfl, ?_, ?_, ?_, ?_⟩ <;>
    simp [processRow, updateQueueItemStatus, sendTelegramNotification,
      mkQueueRow]

/-- C7: a failed fetch of the pending rows aborts the run with success =
false and HTTP 500 and touches no row; with a successful fetch the run
processes every fetched row in order — a per-row send failure (the channel
answering ok = false, as a rate-limit rejection does) marks exactly that row
failed while the others proceed — and the run reports success = true. -/
theorem C7_failure_semantics :
    ∀ (m : String) (rows : List QueueItem) (send : QueueItem → ChannelResp)
      (now : Nat),
      (drainRun (Except.error m) send now).1.success = false ∧
      (drainRun (Except.error m) send now).1.httpStatus = 500 ∧
      (drainRun (Except.error m) send now).2 = [] ∧
      (drainRun (Except.ok rows) send now).1.success = true ∧
      (drainRun (Except.ok rows) send now).1.httpStatus = 200 ∧
      (drainRun (Except.ok rows) send now).2 =
        rows.map (processRow send now) ∧
      (drainRun (Except.ok rows) send now).1.total_processed = rows.length ∧
      (∀ r : QueueItem, (processRow send now r).status =
        if (send r).ok then "sent" else "failed") := by
  intro m rows send now
  obtain ⟨h1, h2, h3, h4, _⟩ := drainRun_ok_spec rows send now
  refine ⟨rfl, rfl, rfl, h1, h2, h3, h4, ?_⟩
  intro r
  by_cases h : (send r).ok <;>
    simp [processRow, updateQueueItemStatus, sendTelegramNotification, h]

/-- C10: every selected row lands in exactly one of the sent or failed
tallies, so processed = sent + failed holds for each batch and for the
whole run's totals (for a failed fetch all three totals are zero). -/
theorem C10_totals_consistent :
    ∀ (send : QueueItem → ChannelResp) (now : Nat) (b : List QueueItem)
      (fetch : Except String (List QueueItem)),
      (processQueueBatch send now b).1.processed =
        (processQueueBatch send now b).1.sent +
          (processQueueBatch send now b).1.failed ∧
      (drainRun fetch send now).1.total_processed =
        (drainRun fetch send now).1.total_sent +
          (drainRun fetch send now).1.total_failed := by
  intro send now b fetch
  refine ⟨processQueueBatch_split send now b, ?_⟩
  cases fetch with
  | error m => rfl
  | ok rows =>
    obtain ⟨_, _, _, _, h5⟩ := drainRun_ok_spec rows send now
    omega

/-- C9: an inventory item whose owner has no user row with a non-null chat_id
yields no queue row: every staged row's owner has a resolvable chat, staging
only ever draws on the reachable items, and the whole populateQueueForDayRange
call is unchanged when the unreachable items are removed — their exclusion is
silent, not an error. -/
theorem C9_unreachable_owner_excluded :
    ∀ (items : List FoodItem) (users : List UserRow) (d now : Nat)
      (keys : List (List String)) (table : List QueueItem),
      (stagedRows items users d now).all
        (fun r => (lookupChat users r.user_id).isSome) = true ∧
      stagedRows items users d now =
        stagedRows
          (items.filter (fun it => (lookupChat users it.user_id).isSome))
          users d now ∧
      populateQueueForDayRange keys items users d now table =
        populateQueueForDayRange keys
          (items.filter (fun it => (lookupChat users it.user_id).isSome))
          users d now table := by
  intro items users d now keys table
  have hfil : ∀ its : List FoodItem,
      stagedRows its users d now =
        stagedRows
          (its.filter (fun it => (lookupChat users it.user_id).isSome))
          users d now := by
    intro its
    unfold stagedRows
    rw [List.filter_filter]
    simp
  refine ⟨?_, hfil items, ?_⟩
  · rw [List.all_eq_true]
    intro r hr
    unfold stagedRows at hr
    obtain ⟨it, hit, rfl⟩ := List.mem_map.mp hr
    have h := (List.mem_filter.mp hit).2
    simpa [mkQueueRow] using h
  · by_cases h1 : items = []
    · subst h1; simp
    · by_cases h2 : (users.filter (fun u => u.chat_id.isSome)) = []
      · have hnone : ∀ uid, lookupChat users uid = none := by
          intro uid; simp [lookupChat, h2]
        have hf0 :
            items.filter (fun it => (lookupChat users it.user_id).isSome)
              = [] := by
          rw [List.filter_eq_nil_iff]
          intro it _
          simp [hnone]
        rw [hf0]
        simp [populateQueueForDayRange, h2, List.isEmpty_iff, h1]
      · by_cases h3 : stagedRows items users d now = []
        · have hf0 :
              items.filter (fun it => (lookupChat users it.user_id).isSome)
                = [] := by
            unfold stagedRows at h3
            rwa [List.map_eq_nil_iff] at h3
          rw [hf0]
          simp [populateQueueForDayRange, List.isEmpty_iff, h1, h2, h3]
        · have h3b :
              stagedRows
                (items.filter (fun it => (lookupChat users it.user_id).isSome))
                users d now ≠ [] := by
            rw [← hfil items]; exact h3
          have hne :
              items.filter (fun it => (lookupChat users it.user_id).isSome)
                ≠ [] := by
            intro hc
            rw [hc] at h3b
            simp [stagedRows] at h3b
          simp [populateQueueForDayRange, List.isEmpty_iff, h1, h2, h3, hne,
            h3b, ← hfil items]

end TheNextFood
